import Mathlib

/-!
Verification of the BotAICurator moderation-queue core.

Shallow embedding of the Python sources:
  services/moderation_service.py  (ModerationMessage, ModerationQueue, SmartReminder)
  admin_bot.py                    (AdminHandlers.handle_edit_callback,
                                   AdminBot.check_editing_timeouts,
                                   AdminHandlers.handle_clear_confirm_yes_callback)
  handlers.py                     (PriorityMessageQueue)

Conventions of the embedding:
* Python `datetime` values and `time.time()` floats are modelled as `Int`
  (seconds); the code only compares and subtracts them, and
  `datetime.fromisoformat (d.isoformat())` is the identity, so ISO
  serialization of a timestamp is modelled as the timestamp itself.
* Python dicts are modelled as insertion-ordered association lists
  (`List (String × α)`, `List (Int × α)`); `dictSet` replaces in place as
  Python `d[k] = v` does, `dictErase` removes the entry as `d.pop(k)` does.
* Python truthiness of an optional integer field (`if message.editing_admin_id:`)
  is `(o.getD 0) ≠ 0`: both `None` and `0` are falsy.
* `status` is kept as the literal strings the source uses:
  "pending", "processing", "approved", "rejected", "expired".
-/

/-- Association-list lookup, first entry wins (Python dict has unique keys). -/
def dictGet {α : Type} (l : List (String × α)) (k : String) : Option α :=
  match l with
  | [] => none
  | (k', v) :: rest => if k' = k then some v else dictGet rest k

/-- Python `k in d`. -/
def dictContains {α : Type} (l : List (String × α)) (k : String) : Bool :=
  (dictGet l k).isSome

/-- Python `d[k] = v`: replace in place if the key exists, else append. -/
def dictSet {α : Type} (l : List (String × α)) (k : String) (v : α) :
    List (String × α) :=
  match l with
  | [] => [(k, v)]
  | (k', v') :: rest =>
      if k' = k then (k, v) :: rest else (k', v') :: dictSet rest k v

/-- Python `d.pop(k)`: remove the entry with key `k` (first occurrence). -/
def dictErase {α : Type} (l : List (String × α)) (k : String) :
    List (String × α) :=
  match l with
  | [] => []
  | (k', v') :: rest =>
      if k' = k then rest else (k', v') :: dictErase rest k

/-- Int-keyed dict lookup (admin-id keyed maps in admin_bot.py). -/
def intGet {α : Type} (l : List (Int × α)) (k : Int) : Option α :=
  match l with
  | [] => none
  | (k', v) :: rest => if k' = k then some v else intGet rest k

/-- Int-keyed `d[k] = v`. -/
def intSet {α : Type} (l : List (Int × α)) (k : Int) (v : α) :
    List (Int × α) :=
  match l with
  | [] => [(k, v)]
  | (k', v') :: rest =>
      if k' = k then (k, v) :: rest else (k', v') :: intSet rest k v

/-- The `ModerationMessage` dataclass of services/moderation_service.py,
with its field defaults.  Datetimes and `time.time()` floats are `Int`. -/
structure ModerationMessage where
  message_id : String
  chat_id : Int
  user_id : Int
  username : String
  original_message : String
  ai_response : String
  timestamp : Int
  chat_title : Option String := none
  original_message_id : Option Int := none
  status : String := "pending"
  rejection_reason : Option String := none
  moderated_at : Option Int := none
  expires_at : Option Int := none
  retry_count : Int := 0
  last_notification : Option Int := none
  admin_processing : Option Int := none
  admin_name : Option String := none
  editing_admin_id : Option Int := none
  editing_admin_name : Option String := none
  editing_started_at : Option Int := none
  reminder_count : Int := 0
  last_reminder_time : Option Int := none
deriving DecidableEq, Repr

/-- `ModerationMessage.is_expired`: `expires_at is not None and now > expires_at`. -/
def ModerationMessage.is_expired (m : ModerationMessage) (now : Int) : Bool :=
  match m.expires_at with
  | none => false
  | some e => now > e

/-- `ModerationMessage.lock_for_editing`. -/
def ModerationMessage.lock_for_editing (m : ModerationMessage)
    (admin_id : Int) (admin_name : String) : ModerationMessage :=
  { m with admin_processing := some admin_id,
           admin_name := some admin_name,
           status := "processing" }

/-- `ModerationMessage.unlock_editing`. -/
def ModerationMessage.unlock_editing (m : ModerationMessage) : ModerationMessage :=
  { m with admin_processing := none,
           admin_name := none,
           status := "pending" }

/-- `ModerationMessage.is_locked`: `admin_processing is not None`. -/
def ModerationMessage.is_locked (m : ModerationMessage) : Bool :=
  m.admin_processing.isSome

/-- In-memory state of `ModerationQueue`: the pending dict and both archives. -/
structure ModerationQueue where
  pending_messages : List (String × ModerationMessage)
  approved_messages : List ModerationMessage
  rejected_messages : List ModerationMessage
deriving DecidableEq, Repr

/-- `ModerationQueue.approve_message`: pop from pending, stamp, archive;
`None` and no state change when the id is absent. -/
def ModerationQueue.approve_message (q : ModerationQueue) (message_id : String)
    (now : Int) : Option ModerationMessage × ModerationQueue :=
  match dictGet q.pending_messages message_id with
  | some message =>
      let message' := { message with status := "approved", moderated_at := some now }
      (some message',
       { q with pending_messages := dictErase q.pending_messages message_id,
                approved_messages := q.approved_messages ++ [message'] })
  | none => (none, q)

/-- `ModerationQueue.reject_message` (reason defaults to `None` in the source). -/
def ModerationQueue.reject_message (q : ModerationQueue) (message_id : String)
    (reason : Option String) (now : Int) :
    Option ModerationMessage × ModerationQueue :=
  match dictGet q.pending_messages message_id with
  | some message =>
      let message' := { message with status := "rejected",
                                     rejection_reason := reason,
                                     moderated_at := some now }
      (some message',
       { q with pending_messages := dictErase q.pending_messages message_id,
                rejected_messages := q.rejected_messages ++ [message'] })
  | none => (none, q)

/-- `ModerationQueue._cleanup_expired_messages`: collect the expired pending
entries, move each to the rejected archive with status "expired", return the
count.  The source's two-phase loop (collect ids, then pop each in order)
leaves exactly the non-expired entries in order and appends the expired
messages to `rejected_messages` in order. -/
def ModerationQueue.cleanup_expired_messages (q : ModerationQueue) (now : Int) :
    Nat × ModerationQueue :=
  let expired := q.pending_messages.filter fun p => p.2.is_expired now
  let remaining := q.pending_messages.filter fun p => !(p.2.is_expired now)
  let moved := expired.map fun p =>
    { p.2 with status := "expired", moderated_at := some now }
  (expired.length,
   { q with pending_messages := remaining,
            rejected_messages := q.rejected_messages ++ moved })

/-- One entry of `AdminHandlers.correction_states`
(`{message_id, step, original_message}`). -/
structure CorrectionState where
  message_id : String
  step : String
  original_message : ModerationMessage
deriving DecidableEq, Repr

/-- The state `AdminHandlers.handle_edit_callback` reads and writes:
the shared moderation queue and the per-admin correction sessions. -/
structure AdminHandlersState where
  queue : ModerationQueue
  correction_states : List (Int × CorrectionState)
deriving DecidableEq, Repr

/-- Outcome of the edit callback, as surfaced to the pressing admin. -/
inductive EditCallbackResult where
  /-- the "у вас уже есть активная сессия" warning, naming the active record -/
  | activeSessionWarning (active_msg_id : String)
  /-- "Сообщение не найдено" -/
  | recordMissing
  /-- `query.answer("Редактирует @...")`, naming the current owner -/
  | deniedEditing (owner_name : Option String)
  /-- the edit lock was (re)acquired and the correction session opened -/
  | acquired
deriving DecidableEq, Repr

/-- The state after the callback's forced queue reload
(`self.moderation_queue._load_data()`, admin_bot.py line 662): the persisted
snapshot is assumed in sync with the in-memory state (every mutation path
calls `_save_data`), so re-reading it reproduces the same records, and the
reload's observable effect is the `_cleanup_expired_messages()` call that
ends `_load_data` (moderation_service.py line 344) — stale pending records
are expired into the rejected archive before anything else happens. -/
def reloaded_state (st : AdminHandlersState) (now : Int) : AdminHandlersState :=
  { st with queue := (st.queue.cleanup_expired_messages now).2 }

/-- `AdminHandlers.handle_edit_callback` (admin_bot.py, lines 629-777),
restricted to its state effect on the queue and the correction sessions:
1. an admin with an active correction session is warned and nothing changes
   (this check precedes the reload);
2. the queue is force-reloaded (`_load_data`, line 662), which expires
   every pending record past its `expires_at` before the lookup;
3. an id absent from the reloaded pending dict — in particular a record the
   reload just expired — reports "не найдено";
4. a record locked by a different admin within 600s yields a denial naming
   the owner; past 600s the stale `editing_*` fields are cleared first;
5. otherwise the `editing_*` fields are set to the caller, the message is
   locked via `lock_for_editing`, and a `waiting_correction` session opens
   (storing the very message object that was just mutated). -/
def handle_edit_callback (st : AdminHandlersState) (admin_user_id : Int)
    (admin_username : String) (message_id : String) (now : Int) :
    EditCallbackResult × AdminHandlersState :=
  match intGet st.correction_states admin_user_id with
  | some cs => (.activeSessionWarning cs.message_id, st)
  | none =>
    let st1 := reloaded_state st now
    match dictGet st1.queue.pending_messages message_id with
    | none => (.recordMissing, st1)
    | some message =>
      if message.editing_admin_id.getD 0 ≠ 0 ∧
          message.editing_admin_id ≠ some admin_user_id then
        if now - message.editing_started_at.getD 0 < 600 then
          (.deniedEditing message.editing_admin_name, st1)
        else
          let cleared := { message with editing_admin_id := none,
                                        editing_admin_name := none,
                                        editing_started_at := none }
          let withEditing := { cleared with
            editing_admin_id := some admin_user_id,
            editing_admin_name := some admin_username,
            editing_started_at := some now }
          let locked := withEditing.lock_for_editing admin_user_id admin_username
          let newPending := dictSet st1.queue.pending_messages message_id locked
          (.acquired,
           { queue := { st1.queue with pending_messages := newPending },
             correction_states := intSet st1.correction_states admin_user_id
               ⟨message_id, "waiting_correction", locked⟩ })
      else
        let withEditing := { message with
          editing_admin_id := some admin_user_id,
          editing_admin_name := some admin_username,
          editing_started_at := some now }
        let locked := withEditing.lock_for_editing admin_user_id admin_username
        let newPending := dictSet st1.queue.pending_messages message_id locked
        (.acquired,
         { queue := { st1.queue with pending_messages := newPending },
           correction_states := intSet st1.correction_states admin_user_id
             ⟨message_id, "waiting_correction", locked⟩ })

/-- The per-message body of `AdminBot.check_editing_timeouts` (admin_bot.py,
lines 2357-2403): if `editing_admin_id` is truthy and the edit is older than
600s, clear the three `editing_*` fields — and nothing else. -/
def sweep_editing_message (m : ModerationMessage) (now : Int) : ModerationMessage :=
  if m.editing_admin_id.getD 0 ≠ 0 then
    if now - m.editing_started_at.getD 0 > 600 then
      { m with editing_admin_id := none,
               editing_admin_name := none,
               editing_started_at := none }
    else m
  else m

/-- One pass of the 60-second `check_editing_timeouts` sweep over the pending
dict (the loop iterates a shallow copy whose values alias the queue's own
message objects, so the mutation lands in the queue). -/
def check_editing_timeouts (q : ModerationQueue) (now : Int) : ModerationQueue :=
  { q with pending_messages :=
      q.pending_messages.map fun p => (p.1, sweep_editing_message p.2 now) }

/-- The serialized (JSON) form of one `ModerationMessage`.  The outer
`Option` on a field models presence of the JSON key (`none` = key missing,
as in a snapshot written by an older version); the inner `Option` models a
JSON `null`.  ISO datetime strings are modelled by the timestamps they
round-trip to. -/
structure SerializedMessage where
  message_id : String
  chat_id : Int
  user_id : Int
  username : String
  original_message : String
  ai_response : String
  timestamp : Int
  chat_title : Option (Option String) := none
  original_message_id : Option (Option Int) := none
  status : Option String := none
  rejection_reason : Option (Option String) := none
  moderated_at : Option (Option Int) := none
  expires_at : Option (Option Int) := none
  retry_count : Option Int := none
  last_notification : Option (Option Int) := none
  admin_processing : Option (Option Int) := none
  admin_name : Option (Option String) := none
  editing_admin_id : Option (Option Int) := none
  editing_admin_name : Option (Option String) := none
  editing_started_at : Option (Option Int) := none
  reminder_count : Option Int := none
  last_reminder_time : Option (Option Int) := none
deriving DecidableEq, Repr

/-- `ModerationMessage.to_dict`: `asdict` emits every field (datetimes as ISO
strings), so every key is present in the output. -/
def ModerationMessage.to_dict (m : ModerationMessage) : SerializedMessage :=
  { message_id := m.message_id,
    chat_id := m.chat_id,
    user_id := m.user_id,
    username := m.username,
    original_message := m.original_message,
    ai_response := m.ai_response,
    timestamp := m.timestamp,
    chat_title := some m.chat_title,
    original_message_id := some m.original_message_id,
    status := some m.status,
    rejection_reason := some m.rejection_reason,
    moderated_at := some m.moderated_at,
    expires_at := some m.expires_at,
    retry_count := some m.retry_count,
    last_notification := some m.last_notification,
    admin_processing := some m.admin_processing,
    admin_name := some m.admin_name,
    editing_admin_id := some m.editing_admin_id,
    editing_admin_name := some m.editing_admin_name,
    editing_started_at := some m.editing_started_at,
    reminder_count := some m.reminder_count,
    last_reminder_time := some m.last_reminder_time }

/-- `ModerationMessage.from_dict`: parse the datetime fields that are present
and non-null, `setdefault` the backward-compatibility fields, and let the
dataclass defaults fill the rest (`status="pending"`, `rejection_reason=None`,
`moderated_at=None`, `expires_at=None`, `original_message_id=None`,
`last_notification=None`). -/
def ModerationMessage.from_dict (s : SerializedMessage) : ModerationMessage :=
  { message_id := s.message_id,
    chat_id := s.chat_id,
    user_id := s.user_id,
    username := s.username,
    original_message := s.original_message,
    ai_response := s.ai_response,
    timestamp := s.timestamp,
    chat_title := s.chat_title.getD none,
    original_message_id := s.original_message_id.getD none,
    status := s.status.getD "pending",
    rejection_reason := s.rejection_reason.getD none,
    moderated_at := s.moderated_at.getD none,
    expires_at := s.expires_at.getD none,
    retry_count := s.retry_count.getD 0,
    last_notification := s.last_notification.getD none,
    admin_processing := s.admin_processing.getD none,
    admin_name := s.admin_name.getD none,
    editing_admin_id := s.editing_admin_id.getD none,
    editing_admin_name := s.editing_admin_name.getD none,
    editing_started_at := s.editing_started_at.getD none,
    reminder_count := s.reminder_count.getD 0,
    last_reminder_time := s.last_reminder_time.getD none }

/-- The JSON document `ModerationQueue._save_to_file` writes. -/
structure SavedData where
  pending_messages : List (String × SerializedMessage)
  approved_messages : List SerializedMessage
  rejected_messages : List SerializedMessage
  metadata_last_saved : Int
  metadata_version : String
  metadata_total : Nat
deriving DecidableEq, Repr

/-- `ModerationQueue._save_to_file` (minus the atomic-rename mechanics). -/
def ModerationQueue.save_to_file (q : ModerationQueue) (now : Int) : SavedData :=
  { pending_messages := q.pending_messages.map fun p => (p.1, p.2.to_dict),
    approved_messages := q.approved_messages.map ModerationMessage.to_dict,
    rejected_messages := q.rejected_messages.map ModerationMessage.to_dict,
    metadata_last_saved := now,
    metadata_version := "2.0",
    metadata_total := q.pending_messages.length + q.approved_messages.length +
      q.rejected_messages.length }

/-- `ModerationQueue._load_from_file` on a structurally valid snapshot
(`_validate_data_integrity` accepts every well-typed `SavedData`; the
`metadata` key is ignored by the loader). -/
def load_from_file (d : SavedData) : ModerationQueue :=
  { pending_messages := d.pending_messages.map fun p =>
      (p.1, ModerationMessage.from_dict p.2),
    approved_messages := d.approved_messages.map ModerationMessage.from_dict,
    rejected_messages := d.rejected_messages.map ModerationMessage.from_dict }

/-- The state touched by `handle_clear_confirm_yes_callback`: the queue, the
persisted queue file (`none` = file absent), and all correction sessions. -/
structure AdminClearState where
  queue : ModerationQueue
  storage : Option SavedData
  correction_states : List (Int × CorrectionState)
deriving DecidableEq, Repr

/-- `AdminHandlers.handle_clear_confirm_yes_callback` (admin_bot.py, lines
1561-1633), state effect only: unauthorized callers change nothing; an
already-empty pending set answers "очередь уже пуста" and returns early;
otherwise `ModerationQueue.clear_all_pending` empties the pending dict and
removes the queue file, and the callback then clears every correction
session.  The returned value is the reported cleared count (`none` when the
operation did not run). -/
def handle_clear_confirm_yes (st : AdminClearState) (is_admin : Bool) :
    Option Nat × AdminClearState :=
  if !is_admin then (none, st)
  else
    let pending_count := st.queue.pending_messages.length
    if pending_count = 0 then (none, st)
    else
      (some pending_count,
       { queue := { st.queue with pending_messages := [] },
         storage := none,
         correction_states := [] })

/-- `reminder_schedule.get(k, 3600)` of `SmartReminder.__init__`. -/
def reminder_schedule (k : Int) : Int :=
  if k = 1 then 3600
  else if k = 2 then 7200
  else if k = 3 then 14400
  else if k = 4 then 28800
  else 3600

/-- `SmartReminder.should_send_reminder`: never while `editing_admin_id` is
truthy; otherwise, while fewer than 4 reminders were sent, send when
`now - last_reminder_timestamp >= schedule[count+1]`, where the reference
point is the last reminder time, or the creation timestamp before the first
reminder. -/
def should_send_reminder (m : ModerationMessage) (now : Int) : Bool :=
  if m.editing_admin_id.getD 0 ≠ 0 then false
  else if m.reminder_count < 4 then
    decide (now - m.last_reminder_time.getD m.timestamp ≥
      reminder_schedule (m.reminder_count + 1))
  else false

/-- The admin ids `SmartReminder.send_smart_reminder` actually sends to:
every configured admin, minus the admin currently editing the message
(string-compared ids, guarded by truthiness of `editing_admin_id`), minus
every admin present in `admin_bot.disabled_reminders`. -/
def smart_reminder_recipients (m : ModerationMessage)
    (admin_chat_ids : List Int) (disabled_reminders : List Int) : List Int :=
  admin_chat_ids.filter fun a =>
    !(decide (m.editing_admin_id.getD 0 ≠ 0) &&
        decide (m.editing_admin_id = some a)) &&
    !(disabled_reminders.contains a)

/-- The reminder-tracking update `SmartReminder.send_smart_reminder`
performs on the message. -/
def send_smart_reminder_update (m : ModerationMessage) (now : Int) :
    ModerationMessage :=
  { m with reminder_count := m.reminder_count + 1,
           last_reminder_time := some now }

/-- The message state `handle_edit_callback` leaves in the pending dict on a
successful acquisition: the three `editing_*` fields set to the caller
(admin_bot.py lines 684-686) and `lock_for_editing` applied (line 737). -/
def locked_message (m : ModerationMessage) (caller : Int) (name : String)
    (now : Int) : ModerationMessage :=
  ({ m with editing_admin_id := some caller,
            editing_admin_name := some name,
            editing_started_at := some now }).lock_for_editing caller name

/-- The full state `handle_edit_callback` leaves behind on a successful
acquisition: pending entry overwritten with `locked_message`, and a
`waiting_correction` session opened for the caller on that entry. -/
def acquired_state (st : AdminHandlersState) (caller : Int) (name : String)
    (id : String) (now : Int) (m : ModerationMessage) : AdminHandlersState :=
  let locked := locked_message m caller name now
  let newPending := dictSet st.queue.pending_messages id locked
  { queue := { st.queue with pending_messages := newPending },
    correction_states := intSet st.correction_states caller
      ⟨id, "waiting_correction", locked⟩ }

/-- The `message_data` dict consumed by `ModerationQueue.add_to_queue`
(`username`, `chat_title`, `original_message_id` are read with `.get`). -/
structure IncomingMessageData where
  chat_id : Int
  user_id : Int
  username : Option String := none
  original_message : String
  ai_response : String
  original_message_id : Option Int := none
  chat_title : Option String := none
deriving DecidableEq, Repr

/-- The `ModerationMessage` literal built by `ModerationQueue.add_to_queue`:
`message_id = str(uuid.uuid4())[:8]` (first 8 characters of the generator
output, modelled on the character list), `expires_at = now + timeout` with
the 24h constructor default (`timeout_hours` is truthiness-tested, so 0
also selects the default). -/
def make_moderation_message (uuid_output : String)
    (message_data : IncomingMessageData) (now : Int)
    (timeout_hours : Option Int) : ModerationMessage :=
  let message_id := String.mk (uuid_output.data.take 8)
  let timeout :=
    if timeout_hours.getD 0 ≠ 0 then timeout_hours.getD 0 * 3600 else 24 * 3600
  { message_id := message_id,
    chat_id := message_data.chat_id,
    user_id := message_data.user_id,
    username := message_data.username.getD "Unknown",
    original_message := message_data.original_message,
    ai_response := message_data.ai_response,
    timestamp := now,
    chat_title := message_data.chat_title,
    original_message_id := message_data.original_message_id,
    expires_at := some (now + timeout) }

/-- `ModerationQueue.add_to_queue`:
`pending_messages[message_id] = message` — a plain dict assignment with no
collision check against existing or previously removed ids. -/
def ModerationQueue.add_to_queue (q : ModerationQueue) (uuid_output : String)
    (message_data : IncomingMessageData) (now : Int)
    (timeout_hours : Option Int) : String × ModerationQueue :=
  let message_id := String.mk (uuid_output.data.take 8)
  let m := make_moderation_message uuid_output message_data now timeout_hours
  (message_id,
   { q with pending_messages := dictSet q.pending_messages message_id m })

/-- `data` element of `PriorityMessageQueue` tuples: the handler dict,
reduced to the field the queue itself reads (`user_id`) plus an opaque
payload distinguishing messages. -/
structure QueuedMessageData where
  user_id : Int
  payload : Nat
deriving DecidableEq, Repr

/-- A `(priority, timestamp, message_data)` tuple as put on the
`asyncio.PriorityQueue`. -/
abbrev QueueEntry := Int × Int × QueuedMessageData

/-- State of `PriorityMessageQueue` (handlers.py): the priority queue
contents and the `user_last_processed` dict. -/
structure PriorityMessageQueue where
  queue : List QueueEntry
  user_last_processed : List (Int × Int)
deriving DecidableEq, Repr

/-- The priority computation of `PriorityMessageQueue.add_message`. -/
def calc_priority (user_last_processed : List (Int × Int)) (user_id : Int)
    (now : Int) : Int :=
  match intGet user_last_processed user_id with
  | none => 0
  | some t =>
      if now - t > 300 then 1
      else if now - t > 60 then 2
      else 3

/-- `PriorityMessageQueue.add_message`: enqueue
`(priority, current_time, message_data)`. -/
def PriorityMessageQueue.add_message (q : PriorityMessageQueue)
    (message_data : QueuedMessageData) (user_id : Int) (now : Int) :
    PriorityMessageQueue :=
  { q with queue := q.queue ++
      [(calc_priority q.user_last_processed user_id now, now, message_data)] }

/-- Strict lexicographic order on `(priority, timestamp)` — the order the
`asyncio.PriorityQueue` min-heap serves tuples in (the third component is
never compared when timestamps are distinct). -/
def entryBefore (a b : QueueEntry) : Bool :=
  decide (a.1 < b.1) || (decide (a.1 = b.1) && decide (a.2.1 < b.2.1))

/-- The minimal entry of `e :: l` under `entryBefore` (first minimum kept). -/
def findMinEntry (e : QueueEntry) (l : List QueueEntry) : QueueEntry :=
  match l with
  | [] => e
  | x :: xs => if entryBefore x e then findMinEntry x xs else findMinEntry e xs

/-- `queue.get()` on the priority queue: serve a minimal
`(priority, timestamp)` entry. -/
def queue_get (l : List QueueEntry) : Option (QueueEntry × List QueueEntry) :=
  match l with
  | [] => none
  | x :: xs =>
      let m := findMinEntry x xs
      some (m, (x :: xs).erase m)

/-- One iteration of `PriorityMessageQueue.process_messages`, up to the
point where the worker hands the message to the handler: pull the minimal
tuple and set `user_last_processed[user_id] = time.time()` — sampled when
processing starts; the handler call that follows does not touch
`user_last_processed`, so completion time never enters the map. -/
def PriorityMessageQueue.process_messages_step (q : PriorityMessageQueue)
    (start_time : Int) : Option (QueueEntry × PriorityMessageQueue) :=
  match queue_get q.queue with
  | none => none
  | some (e, rest) =>
      some (e, { queue := rest,
                 user_last_processed :=
                   intSet q.user_last_processed e.2.2.user_id start_time })

/-- A Python heap of dict objects: `store` maps references to pending-dict
values, `next_ref` is the next fresh reference.  Used to model the aliasing
semantics of `ModerationQueue.get_pending_messages`. -/
structure PyHeap where
  next_ref : Nat
  store : Nat → List (String × ModerationMessage)

/-- `ModerationQueue.get_pending_messages`: `self.pending_messages.copy()` —
allocate a fresh dict object with the same entries and return a reference
to it (not the queue's own reference). -/
def PyHeap.get_pending_messages (h : PyHeap) (queue_ref : Nat) : Nat × PyHeap :=
  (h.next_ref,
   { next_ref := h.next_ref + 1,
     store := fun r => if r = h.next_ref then h.store queue_ref else h.store r })

/-- An arbitrary caller-side mutation of a dict object: overwrite the dict
value held at reference `r` (covers any additions/removals of entries). -/
def PyHeap.write (h : PyHeap) (r : Nat)
    (d : List (String × ModerationMessage)) : PyHeap :=
  { h with store := fun r' => if r' = r then d else h.store r' }

/-- A plain unlocked pending message used to instantiate theorems. -/
def sampleMsg : ModerationMessage :=
  { message_id := "m1", chat_id := 10, user_id := 20, username := "user",
    original_message := "question", ai_response := "answer", timestamp := 0,
    expires_at := some 86400 }

/-- A second sample message under a different id. -/
def sampleMsg2 : ModerationMessage :=
  { message_id := "m2", chat_id := 11, user_id := 21, username := "user2",
    original_message := "question2", ai_response := "answer2", timestamp := 0,
    expires_at := some 86400 }

/-- A sample message whose expiry has already passed at `now = 100`. -/
def expiredMsg : ModerationMessage :=
  { message_id := "e1", chat_id := 12, user_id := 22, username := "user3",
    original_message := "old question", ai_response := "old answer",
    timestamp := 0, expires_at := some 10 }

/-- A queue holding one expired and one live pending message. -/
def qC5 : ModerationQueue :=
  { pending_messages := [("e1", expiredMsg), ("m1", sampleMsg)],
    approved_messages := [], rejected_messages := [] }

/-- A queue holding the single pending message "m1". -/
def qOne : ModerationQueue :=
  { pending_messages := [("m1", sampleMsg)],
    approved_messages := [], rejected_messages := [] }

/-- Handler state: "m2" pending and unlocked, while admin 1 already has an
active correction session on "m1". -/
def stBusyAdmin : AdminHandlersState :=
  { queue := { pending_messages := [("m2", sampleMsg2)],
               approved_messages := [], rejected_messages := [] },
    correction_states := [(1, ⟨"m1", "waiting_correction", sampleMsg⟩)] }

/-- Handler state with "m1" pending, no locks, no sessions. -/
def stFresh : AdminHandlersState :=
  { queue := qOne, correction_states := [] }

/-- A sample correction session on "m1". -/
def csSample : CorrectionState := ⟨"m1", "waiting_correction", sampleMsg⟩

/-- An (empty) persisted snapshot standing for an existing queue file. -/
def savedEmpty : SavedData :=
  { pending_messages := [], approved_messages := [], rejected_messages := [],
    metadata_last_saved := 0, metadata_version := "2.0", metadata_total := 0 }

/-- Clear-callback state with an empty pending set but a live edit session
and an existing queue file. -/
def stClearEmpty : AdminClearState :=
  { queue := { pending_messages := [], approved_messages := [],
               rejected_messages := [] },
    storage := some savedEmpty,
    correction_states := [(1, csSample)] }

/-- Clear-callback state with one pending record, a session and a file. -/
def stClearOne : AdminClearState :=
  { queue := qOne, storage := some savedEmpty,
    correction_states := [(1, csSample)] }

/-- A pending message stored under the id "abcdefgh". -/
def collidedMsg : ModerationMessage :=
  { message_id := "abcdefgh", chat_id := 1, user_id := 2, username := "u",
    original_message := "old question", ai_response := "old answer",
    timestamp := 0, expires_at := some 86400 }

/-- A queue whose only pending id is "abcdefgh". -/
def qCollide : ModerationQueue :=
  { pending_messages := [("abcdefgh", collidedMsg)],
    approved_messages := [], rejected_messages := [] }

/-- Incoming message data for a fresh enqueue. -/
def dataNew : IncomingMessageData :=
  { chat_id := 3, user_id := 4, original_message := "new question",
    ai_response := "new answer" }

/-- A message created at `t = 0` whose first reminder went out at `t = 3600`. -/
def reminderMsg : ModerationMessage :=
  { message_id := "r1", chat_id := 1, user_id := 2, username := "u",
    original_message := "q", ai_response := "a", timestamp := 0,
    reminder_count := 1, last_reminder_time := some 3600 }

/-- A one-object heap whose reference 0 holds the pending dict. -/
def heap0 : PyHeap :=
  { next_ref := 1, store := fun _ => [("m1", sampleMsg)] }

/-- `reminderMsg` while admin 9 is editing it. -/
def reminderMsgLocked : ModerationMessage :=
  { reminderMsg with editing_admin_id := some 9 }

/-- `reminderMsg` after the fourth reminder. -/
def reminderMsgMax : ModerationMessage :=
  { reminderMsg with reminder_count := 4 }

/-- Intake payload from user 5. -/
def intakeData5 : QueuedMessageData := { user_id := 5, payload := 0 }

/-- Intake payload from user 6. -/
def intakeData6 : QueuedMessageData := { user_id := 6, payload := 1 }

/-- An intake queue that last served user 5 at `t = 0`. -/
def intakeQueueSeen5 : PriorityMessageQueue :=
  { queue := [], user_last_processed := [(5, 0)] }

/-- An intake queue holding two same-priority entries, enqueued at
`t = 10` and `t = 20`. -/
def intakeQueueFifo : PriorityMessageQueue :=
  { queue := [(1, 10, intakeData5), (1, 20, intakeData6)],
    user_last_processed := [] }

/-- An intake queue holding one entry from user 5. -/
def intakeQueueStep : PriorityMessageQueue :=
  { queue := [(0, 7, intakeData5)], user_last_processed := [] }

/-- A `ModerationQueue` built from a pending dict value and empty archives
(how approve/reject observe the pending dict they operate on). -/
def queue_of_pending (l : List (String × ModerationMessage)) : ModerationQueue :=
  { pending_messages := l, approved_messages := [], rejected_messages := [] }

/-- First helper fact: an absent key looks up to `none`. -/
theorem dictGet_eq_none_of_not_contains {α : Type} {l : List (String × α)}
    {k : String} (h : dictContains l k = false) : dictGet l k = none := by
  unfold dictContains at h
  cases hg : dictGet l k with
  | none => rfl
  | some v => rw [hg] at h; simp at h

/-- C3: approve/reject on an id absent from the pending dict return `None`
and leave the queue state (pending dict and both archives) unchanged; on a
pending id they remove the entry, stamp `moderated_at`, append the message
to the matching archive (with the reason recorded for reject) and return it. -/
theorem C3_approve_reject_terminal_finality
    (q : ModerationQueue) (id : String) (reason : Option String) (now : Int) :
    (dictContains q.pending_messages id = false →
        q.approve_message id now = (none, q) ∧
        q.reject_message id reason now = (none, q)) ∧
    (∀ m, dictGet q.pending_messages id = some m →
        q.approve_message id now =
          (some { m with status := "approved", moderated_at := some now },
           { q with pending_messages := dictErase q.pending_messages id,
                    approved_messages := q.approved_messages ++
                      [{ m with status := "approved", moderated_at := some now }] }) ∧
        q.reject_message id reason now =
          (some { m with status := "rejected", rejection_reason := reason,
                         moderated_at := some now },
           { q with pending_messages := dictErase q.pending_messages id,
                    rejected_messages := q.rejected_messages ++
                      [{ m with status := "rejected", rejection_reason := reason,
                                moderated_at := some now }] })) := by
  constructor
  · intro habs
    have hnone := dictGet_eq_none_of_not_contains habs
    constructor
    · unfold ModerationQueue.approve_message
      rw [hnone]
    · unfold ModerationQueue.reject_message
      rw [hnone]
  · intro m hm
    constructor
    · unfold ModerationQueue.approve_message
      rw [hm]
    · unfold ModerationQueue.reject_message
      rw [hm]

/-- Concrete instantiation of `C3_approve_reject_terminal_finality`:
a one-element queue, checked on the absent id "gone" and the pending id "m1". -/
theorem C3_approve_reject_terminal_finality_witness :
    (dictContains qOne.pending_messages "gone" = false) ∧
    (qOne.approve_message "gone" 5 = (none, qOne)) ∧
    (dictGet qOne.pending_messages "m1" = some sampleMsg) ∧
    ((qOne.approve_message "m1" 5).1 =
      some { sampleMsg with status := "approved", moderated_at := some 5 }) := by
  refine ⟨by decide, ?_, by decide, ?_⟩
  · exact ((C3_approve_reject_terminal_finality qOne "gone" none 5).1
      (by decide)).1
  · rw [((C3_approve_reject_terminal_finality qOne "m1" none 5).2
      sampleMsg (by decide)).1]

/-- C5: one pass of the expiry sweep moves exactly the pending records whose
`expires_at` has passed into the rejected archive with status "expired" and
`moderated_at` stamped — with no condition on any lock field, so locked
records are swept like the rest — leaves every non-expired record pending,
and returns the number of records moved. -/
theorem C5_expiry_sweep_moves_expired_records
    (q : ModerationQueue) (now : Int) :
    (q.cleanup_expired_messages now).2.rejected_messages.length
        = q.rejected_messages.length + (q.cleanup_expired_messages now).1 ∧
    (q.cleanup_expired_messages now).1
        = (q.pending_messages.filter fun p => p.2.is_expired now).length ∧
    (∀ p ∈ q.pending_messages, p.2.is_expired now = true →
        p ∉ (q.cleanup_expired_messages now).2.pending_messages ∧
        ({ p.2 with status := "expired", moderated_at := some now } :
            ModerationMessage) ∈
          (q.cleanup_expired_messages now).2.rejected_messages) ∧
    (∀ p ∈ q.pending_messages, p.2.is_expired now = false →
        p ∈ (q.cleanup_expired_messages now).2.pending_messages) := by
  refine ⟨?_, rfl, ?_, ?_⟩
  · simp [ModerationQueue.cleanup_expired_messages]
  · intro p hp hexp
    constructor
    · simp only [ModerationQueue.cleanup_expired_messages, List.mem_filter]
      intro hmem
      rw [hexp] at hmem
      simp at hmem
    · simp only [ModerationQueue.cleanup_expired_messages, List.mem_append,
        List.mem_map]
      exact Or.inr ⟨p, List.mem_filter.mpr ⟨hp, hexp⟩, rfl⟩
  · intro p hp hexp
    simp only [ModerationQueue.cleanup_expired_messages, List.mem_filter]
    exact ⟨hp, by rw [hexp]; rfl⟩

/-- Concrete instantiation of `C5_expiry_sweep_moves_expired_records`:
at `now = 100`, "e1" (expired at 10) is moved to the rejected archive with
status "expired" while "m1" (expiring at 86400) stays pending. -/
theorem C5_expiry_sweep_moves_expired_records_witness :
    ("e1", expiredMsg) ∈ qC5.pending_messages ∧
    expiredMsg.is_expired 100 = true ∧
    ("m1", sampleMsg) ∈ qC5.pending_messages ∧
    sampleMsg.is_expired 100 = false ∧
    (("e1", expiredMsg) ∉ (qC5.cleanup_expired_messages 100).2.pending_messages ∧
      ({ expiredMsg with status := "expired", moderated_at := some 100 } :
          ModerationMessage) ∈
        (qC5.cleanup_expired_messages 100).2.rejected_messages) ∧
    ("m1", sampleMsg) ∈ (qC5.cleanup_expired_messages 100).2.pending_messages :=
  ⟨by decide, by decide, by decide, by decide,
   (C5_expiry_sweep_moves_expired_records qC5 100).2.2.1 ("e1", expiredMsg)
     (by decide) (by decide),
   (C5_expiry_sweep_moves_expired_records qC5 100).2.2.2 ("m1", sampleMsg)
     (by decide) (by decide)⟩

/-- C1 fails as stated: the edit callback checks the caller's correction
sessions before the lock state (admin_bot.py line 639), so a caller with an
active session on another record is warned and does NOT acquire the lock of
an unlocked pending record — here record "m2" is unlocked and pending, yet
admin 1 (mid-edit on "m1") gets the active-session warning and every piece
of state is left unchanged. -/
theorem C1_active_session_blocks_unlocked_acquire :
    sampleMsg2.editing_admin_id = none ∧
    dictGet stBusyAdmin.queue.pending_messages "m2" = some sampleMsg2 ∧
    handle_edit_callback stBusyAdmin 1 "alice" "m2" 50 =
      (.activeSessionWarning "m1", stBusyAdmin) := by
  refine ⟨rfl, by decide, by decide⟩

/-- An association list with no entry keyed `k` looks `k` up to `none`. -/
theorem dictGet_eq_none_of_keys_not_mem {α : Type} {l : List (String × α)}
    {k : String} (h : ∀ p ∈ l, p.1 ≠ k) : dictGet l k = none := by
  induction l with
  | nil => rfl
  | cons q rest ih =>
      obtain ⟨k', v'⟩ := q
      have hk : k' ≠ k := h (k', v') (List.mem_cons_self _ _)
      simp only [dictGet]
      rw [if_neg hk]
      exact ih fun p hp => h p (List.mem_cons_of_mem _ hp)

/-- Filtering keeps a looked-up entry whose value satisfies the predicate:
the first entry keyed `k` survives and stays first. -/
theorem dictGet_filter_pos {α : Type} {l : List (String × α)} {k : String}
    {v : α} {p : String × α → Bool}
    (h : dictGet l k = some v) (hp : p (k, v) = true) :
    dictGet (l.filter p) k = some v := by
  induction l with
  | nil => simp [dictGet] at h
  | cons q rest ih =>
      obtain ⟨k', v'⟩ := q
      by_cases hk : k' = k
      · subst hk
        simp only [dictGet, if_pos rfl] at h
        have hv : v' = v := by injection h
        subst hv
        rw [List.filter_cons]
        simp only [hp, if_true]
        simp [dictGet]
      · simp only [dictGet] at h
        rw [if_neg hk] at h
        rw [List.filter_cons]
        by_cases hq : p (k', v') = true
        · simp only [hq, if_true, dictGet]
          rw [if_neg hk]
          exact ih h
        · simp only [hq, if_false, Bool.false_eq_true]
          exact ih h

/-- With unique keys (a Python dict invariant), filtering OUT a looked-up
entry makes its key absent. -/
theorem dictGet_filter_neg {α : Type} {l : List (String × α)} {k : String}
    {v : α} {p : String × α → Bool}
    (hnodup : (l.map Prod.fst).Nodup)
    (h : dictGet l k = some v) (hp : p (k, v) = false) :
    dictGet (l.filter p) k = none := by
  induction l with
  | nil => simp [dictGet] at h
  | cons q rest ih =>
      obtain ⟨k', v'⟩ := q
      rw [List.map_cons, List.nodup_cons] at hnodup
      obtain ⟨hnotin, hnd⟩ := hnodup
      by_cases hk : k' = k
      · subst hk
        simp only [dictGet, if_pos rfl] at h
        have hv : v' = v := by injection h
        subst hv
        rw [List.filter_cons]
        simp only [hp, if_false, Bool.false_eq_true]
        apply dictGet_eq_none_of_keys_not_mem
        intro pq hpq hcontra
        exact hnotin (List.mem_map.mpr ⟨pq, List.mem_of_mem_filter hpq, hcontra⟩)
      · simp only [dictGet] at h
        rw [if_neg hk] at h
        rw [List.filter_cons]
        by_cases hq : p (k', v') = true
        · simp only [hq, if_true, dictGet]
          rw [if_neg hk]
          exact ih hnd h
        · simp only [hq, if_false, Bool.false_eq_true]
          exact ih hnd h

/-- C1 (amended): provided the caller has no active correction session, the
edit callback first force-reloads the queue, which expires every pending
record past its `expires_at`; then, for a record in the pending set:
if it has expired, the program reports it not found (the expiry, not an
acquisition, is the state change); if it is unexpired and unlocked, the
caller acquires the lock; if locked by the same reviewer, idempotent
success; if locked by a different (nonzero) reviewer less than 600s ago,
the call is denied naming the owner and the only state change is the
reload's expiry sweep; 600s or more after acquisition the stale lock is
cleared and the caller acquires fresh. -/
theorem C1_edit_lock_acquisition_cases
    (st : AdminHandlersState) (caller : Int) (caller_name : String)
    (id : String) (now : Int) (m : ModerationMessage)
    (hsession : intGet st.correction_states caller = none)
    (hm : dictGet st.queue.pending_messages id = some m)
    (hnodup : (st.queue.pending_messages.map Prod.fst).Nodup) :
    (m.is_expired now = true →
        handle_edit_callback st caller caller_name id now =
          (.recordMissing, reloaded_state st now)) ∧
    (m.is_expired now = false → m.editing_admin_id = none →
        handle_edit_callback st caller caller_name id now =
          (.acquired,
           acquired_state (reloaded_state st now) caller caller_name id now m)) ∧
    (m.is_expired now = false → m.editing_admin_id = some caller →
        handle_edit_callback st caller caller_name id now =
          (.acquired,
           acquired_state (reloaded_state st now) caller caller_name id now m)) ∧
    (∀ o t, m.is_expired now = false → m.editing_admin_id = some o → o ≠ 0 →
        o ≠ caller → m.editing_started_at = some t → now - t < 600 →
        handle_edit_callback st caller caller_name id now =
          (.deniedEditing m.editing_admin_name, reloaded_state st now)) ∧
    (∀ o t, m.is_expired now = false → m.editing_admin_id = some o → o ≠ 0 →
        o ≠ caller → m.editing_started_at = some t → 600 ≤ now - t →
        handle_edit_callback st caller caller_name id now =
          (.acquired,
           acquired_state (reloaded_state st now) caller caller_name id now m)) := by
  refine ⟨?_, ?_, ?_, ?_, ?_⟩
  · intro hexp
    have hm1 : dictGet ((reloaded_state st now).queue.pending_messages) id =
        none := by
      show dictGet (st.queue.pending_messages.filter
        fun p => !(p.2.is_expired now)) id = none
      exact dictGet_filter_neg hnodup hm (by simp [hexp])
    simp [handle_edit_callback, hsession, hm1]
  · intro hexp h
    have hm1 : dictGet ((reloaded_state st now).queue.pending_messages) id =
        some m := by
      show dictGet (st.queue.pending_messages.filter
        fun p => !(p.2.is_expired now)) id = some m
      exact dictGet_filter_pos hm (by simp [hexp])
    simp [handle_edit_callback, hsession, hm1, h, acquired_state,
      locked_message]
  · intro hexp h
    have hm1 : dictGet ((reloaded_state st now).queue.pending_messages) id =
        some m := by
      show dictGet (st.queue.pending_messages.filter
        fun p => !(p.2.is_expired now)) id = some m
      exact dictGet_filter_pos hm (by simp [hexp])
    simp [handle_edit_callback, hsession, hm1, h, acquired_state,
      locked_message]
  · intro o t hexp ho ho0 hoc hst hlt
    have hm1 : dictGet ((reloaded_state st now).queue.pending_messages) id =
        some m := by
      show dictGet (st.queue.pending_messages.filter
        fun p => !(p.2.is_expired now)) id = some m
      exact dictGet_filter_pos hm (by simp [hexp])
    simp [handle_edit_callback, hsession, hm1, ho, ho0, hoc, hst, hlt]
  · intro o t hexp ho ho0 hoc hst hge
    have hm1 : dictGet ((reloaded_state st now).queue.pending_messages) id =
        some m := by
      show dictGet (st.queue.pending_messages.filter
        fun p => !(p.2.is_expired now)) id = some m
      exact dictGet_filter_pos hm (by simp [hexp])
    have hnlt : ¬(now - t < 600) := by omega
    simp [handle_edit_callback, hsession, hm1, ho, ho0, hoc, hst, hnlt,
      acquired_state, locked_message]

/-- Concrete instantiation of `C1_edit_lock_acquisition_cases`: in a state
with no sessions, admin 5 acquires the unexpired unlocked record "m1" at
`t = 10`; and in `qC5` at `t = 100` the already-expired record "e1" is
reported not found, the reload having just expired it. -/
theorem C1_edit_lock_acquisition_cases_witness :
    intGet stFresh.correction_states 5 = none ∧
    dictGet stFresh.queue.pending_messages "m1" = some sampleMsg ∧
    sampleMsg.is_expired 10 = false ∧
    sampleMsg.editing_admin_id = none ∧
    handle_edit_callback stFresh 5 "bob" "m1" 10 =
      (.acquired, acquired_state (reloaded_state stFresh 10) 5 "bob" "m1" 10
        sampleMsg) ∧
    dictGet ({ queue := qC5, correction_states := [] } :
      AdminHandlersState).queue.pending_messages "e1" = some expiredMsg ∧
    expiredMsg.is_expired 100 = true ∧
    handle_edit_callback { queue := qC5, correction_states := [] } 5 "bob"
      "e1" 100 =
      (.recordMissing,
       reloaded_state { queue := qC5, correction_states := [] } 100) :=
  ⟨rfl, by decide, rfl, rfl,
   (C1_edit_lock_acquisition_cases stFresh 5 "bob" "m1" 10 sampleMsg
     rfl (by decide) (by decide)).2.1 rfl rfl,
   by decide, rfl,
   (C1_edit_lock_acquisition_cases { queue := qC5, correction_states := [] }
     5 "bob" "e1" 100 expiredMsg rfl (by decide) (by decide)).1 rfl⟩


/-- C2 fails on the code: starting from a fresh pending record, admin 7
acquires the edit lock at `t = 0` (both lock representations set, status
"processing"), and the 60-second `check_editing_timeouts` sweep at `t = 601`
clears only the `editing_*` fields — afterwards `editing_admin_id` (the
spec's `lockOwnerId`, the field carrying `lockAcquiredAt`) is `None` while
`status` is still "processing" and `admin_processing`/`is_locked()` still
report admin 7, so `status == Locked ⇔ lockOwnerId != null` is broken by
the sweep, contradicting the sweep's own "message available again"
notification and button restoration. -/
theorem C2_timeout_sweep_breaks_status_lock_equivalence :
    (Option.map
      (fun m => (m.status, m.admin_processing, m.editing_admin_id, m.is_locked))
      (dictGet (check_editing_timeouts
          (handle_edit_callback stFresh 7 "alice" "m1" 0).2.queue
          601).pending_messages "m1"))
      = some ("processing", some 7, none, true) := by decide

/-- C4 fails as stated at one concrete input: with an already-empty pending
set, the clear-confirmation callback answers "очередь уже пуста" and returns
before `clear_all_pending` and before `correction_states.clear()` — so an
active edit session survives and the persisted queue file is not wiped,
contradicting "clears every active reviewer edit session". -/
theorem C4_empty_pending_clear_keeps_sessions :
    stClearEmpty.queue.pending_messages = [] ∧
    stClearEmpty.correction_states ≠ [] ∧
    handle_clear_confirm_yes stClearEmpty true = (none, stClearEmpty) ∧
    (handle_clear_confirm_yes stClearEmpty true).2.correction_states =
      [(1, csSample)] ∧
    (handle_clear_confirm_yes stClearEmpty true).2.storage = some savedEmpty := by
  decide

/-- C4 (amended): when at least one record is pending, the confirmed clear
operation reports the previous pending count, empties the pending set, wipes
the persisted queue file, and clears every active edit session; afterwards
`approve` returns `None` for every id.  (When the pending set is already
empty the callback is a no-op that leaves sessions and the file untouched.) -/
theorem C4_clear_all_pending_nonempty
    (st : AdminClearState) (id : String) (now : Int)
    (hne : st.queue.pending_messages ≠ []) :
    handle_clear_confirm_yes st true =
      (some st.queue.pending_messages.length,
       { queue := { st.queue with pending_messages := [] },
         storage := none, correction_states := [] }) ∧
    ((handle_clear_confirm_yes st true).2.queue.approve_message id now).1 =
      none := by
  have hlen : ¬ st.queue.pending_messages.length = 0 := by
    simpa [List.length_eq_zero] using hne
  constructor
  · simp [handle_clear_confirm_yes, hlen]
  · simp [handle_clear_confirm_yes, hlen, ModerationQueue.approve_message,
      dictGet]

/-- Concrete instantiation of `C4_clear_all_pending_nonempty`: one pending
record, one live session, an existing file — the clear reports 1, empties
everything, and a subsequent approve of the old id returns `None`. -/
theorem C4_clear_all_pending_nonempty_witness :
    stClearOne.queue.pending_messages ≠ [] ∧
    handle_clear_confirm_yes stClearOne true =
      (some 1,
       { queue := { stClearOne.queue with pending_messages := [] },
         storage := none, correction_states := [] }) ∧
    ((handle_clear_confirm_yes stClearOne true).2.queue.approve_message
      "m1" 5).1 = none :=
  ⟨by decide,
   (C4_clear_all_pending_nonempty stClearOne "m1" 5 (by decide)).1,
   (C4_clear_all_pending_nonempty stClearOne "m1" 5 (by decide)).2⟩

/-- Setting a key and reading it back yields the new value. -/
theorem intGet_intSet_self {α : Type} (l : List (Int × α)) (k : Int) (v : α) :
    intGet (intSet l k v) k = some v := by
  induction l with
  | nil => simp [intSet, intGet]
  | cons p rest ih =>
      obtain ⟨k', v'⟩ := p
      by_cases h : k' = k
      · simp [intSet, intGet, h]
      · simp [intSet, intGet, h, ih]

/-- `entryBefore` is irreflexive. -/
theorem entryBefore_irrefl (a : QueueEntry) : entryBefore a a = false := by
  simp [entryBefore]

/-- `entryBefore` is transitive. -/
theorem entryBefore_trans {a b c : QueueEntry} (h1 : entryBefore a b = true)
    (h2 : entryBefore b c = true) : entryBefore a c = true := by
  simp [entryBefore] at h1 h2 ⊢
  omega

/-- If `a` is not before `b` but is before `c`, then `b` is before `c`. -/
theorem entryBefore_of_notBefore_of_before {a b c : QueueEntry}
    (h1 : entryBefore a b = false) (h2 : entryBefore a c = true) :
    entryBefore b c = true := by
  simp [entryBefore] at h1 h2 ⊢
  omega

/-- `findMinEntry` returns an element of the candidate list. -/
theorem findMinEntry_mem (e : QueueEntry) (l : List QueueEntry) :
    findMinEntry e l ∈ e :: l := by
  induction l generalizing e with
  | nil => simp [findMinEntry]
  | cons x xs ih =>
      unfold findMinEntry
      by_cases h : entryBefore x e = true
      · rw [if_pos h]
        exact List.mem_cons_of_mem e (ih x)
      · rw [if_neg h]
        rcases List.mem_cons.mp (ih e) with h1 | h2
        · rw [h1]
          exact List.mem_cons_self e (x :: xs)
        · exact List.mem_cons_of_mem e (List.mem_cons_of_mem x h2)

/-- No element of the candidate list is strictly before the minimum. -/
theorem findMinEntry_min (e : QueueEntry) (l : List QueueEntry) :
    ∀ x ∈ e :: l, entryBefore x (findMinEntry e l) = false := by
  induction l generalizing e with
  | nil =>
      intro x hx
      simp only [List.mem_singleton] at hx
      subst hx
      simp only [findMinEntry]
      exact entryBefore_irrefl x
  | cons y ys ih =>
      intro x hx
      unfold findMinEntry
      by_cases h : entryBefore y e = true
      · rw [if_pos h]
        rcases List.mem_cons.mp hx with rfl | hx'
        · cases hcase : entryBefore x (findMinEntry y ys) with
          | false => rfl
          | true =>
              have hy := ih y y (List.mem_cons_self y ys)
              have := entryBefore_trans h hcase
              rw [this] at hy
              exact hy
        · exact ih y x hx'
      · rw [if_neg h]
        have hbf : entryBefore y e = false := by
          cases hc : entryBefore y e
          · rfl
          · exact absurd hc h
        rcases List.mem_cons.mp hx with rfl | hx'
        · exact ih _ _ (List.mem_cons_self _ _)
        · rcases List.mem_cons.mp hx' with rfl | hx''
          · cases hcase : entryBefore x (findMinEntry e ys) with
            | false => rfl
            | true =>
                have hem := ih e e (List.mem_cons_self e ys)
                have := entryBefore_of_notBefore_of_before hbf hcase
                rw [this] at hem
                exact hem
          · exact ih e x (List.mem_cons_of_mem e hx'')

/-- The entry served by `queue_get` is in the queue, and nothing queued is
strictly before it in `(priority, timestamp)` order. -/
theorem queue_get_min {l : List QueueEntry} {m : QueueEntry}
    {rest : List QueueEntry} (h : queue_get l = some (m, rest)) :
    m ∈ l ∧ ∀ x ∈ l, entryBefore x m = false := by
  cases l with
  | nil => simp [queue_get] at h
  | cons a as =>
      simp only [queue_get, Option.some.injEq, Prod.mk.injEq] at h
      obtain ⟨hm, _⟩ := h
      rw [← hm]
      exact ⟨findMinEntry_mem a as, findMinEntry_min a as⟩

/-- C6: the intake priority policy — requester never seen → class 0; last
served more than 5 minutes ago → 1; more than 60s but at most 5 minutes →
2; within the last 60s → 3; entries are enqueued with that class and the
enqueue time as tie-break; among equal classes the earlier-enqueued entry
is never outserved by a later one (FIFO); and the worker step records the
requester's last-served time as the time processing starts — the returned
state already carries the update before the handler runs, and no completion
time is ever written. -/
theorem C6_intake_priority_policy
    (last_map : List (Int × Int)) (u t now : Int)
    (q : PriorityMessageQueue) (d : QueuedMessageData)
    (e1 e2 m : QueueEntry) (rest : List QueueEntry)
    (entry : QueueEntry) (q' : PriorityMessageQueue) (start_time : Int) :
    (intGet last_map u = none → calc_priority last_map u now = 0) ∧
    (intGet last_map u = some t → now - t > 300 →
        calc_priority last_map u now = 1) ∧
    (intGet last_map u = some t → 60 < now - t → now - t ≤ 300 →
        calc_priority last_map u now = 2) ∧
    (intGet last_map u = some t → now - t ≤ 60 →
        calc_priority last_map u now = 3) ∧
    ((q.add_message d u now).queue =
        q.queue ++ [(calc_priority q.user_last_processed u now, now, d)]) ∧
    (e1 ∈ q.queue → e2 ∈ q.queue → e1.1 = e2.1 → e1.2.1 < e2.2.1 →
        queue_get q.queue = some (m, rest) → m ≠ e2) ∧
    (q.process_messages_step start_time = some (entry, q') →
        intGet q'.user_last_processed entry.2.2.user_id = some start_time) := by
  refine ⟨?_, ?_, ?_, ?_, rfl, ?_, ?_⟩
  · intro h
    simp [calc_priority, h]
  · intro h hgt
    simp only [calc_priority, h]
    rw [if_pos hgt]
  · intro h h60 h300
    simp only [calc_priority, h]
    rw [if_neg (by omega), if_pos (by omega)]
  · intro h h60
    simp only [calc_priority, h]
    rw [if_neg (by omega), if_neg (by omega)]
  · intro h1 h2 hp ht hget heq
    have hmin := (queue_get_min hget).2 e1 h1
    rw [heq] at hmin
    have hbefore : entryBefore e1 e2 = true := by
      simp [entryBefore]
      omega
    rw [hbefore] at hmin
    exact Bool.noConfusion hmin
  · intro h
    unfold PriorityMessageQueue.process_messages_step at h
    cases hq : queue_get q.queue with
    | none => rw [hq] at h; simp at h
    | some p =>
        obtain ⟨e0, rest0⟩ := p
        rw [hq] at h
        simp only [Option.some.injEq, Prod.mk.injEq] at h
        obtain ⟨he, hq'⟩ := h
        rw [← hq', ← he]
        exact intGet_intSet_self q.user_last_processed e0.2.2.user_id start_time

/-- Concrete instantiation of `C6_intake_priority_policy`: the four priority
classes at concrete times; FIFO between two class-1 entries enqueued at 10
and 20; and the last-served map right after a worker pulls user 5's request
at `t = 77`. -/
theorem C6_intake_priority_policy_witness :
    calc_priority [] 9 100 = 0 ∧
    calc_priority [(5, 0)] 5 400 = 1 ∧
    calc_priority [(5, 0)] 5 200 = 2 ∧
    calc_priority [(5, 0)] 5 50 = 3 ∧
    (intakeQueueSeen5.add_message intakeData5 5 200).queue =
      intakeQueueSeen5.queue ++ [(2, 200, intakeData5)] ∧
    queue_get intakeQueueFifo.queue =
      some ((1, 10, intakeData5), [(1, 20, intakeData6)]) ∧
    (1, 10, intakeData5) ≠ ((1, 20, intakeData6) : QueueEntry) ∧
    intakeQueueStep.process_messages_step 77 =
      some ((0, 7, intakeData5),
        { queue := [], user_last_processed := [(5, 77)] }) ∧
    intGet ({ queue := [], user_last_processed := [(5, 77)] } :
        PriorityMessageQueue).user_last_processed 5 = some 77 := by
  refine ⟨?_, ?_, ?_, ?_, ?_, by decide, ?_, by decide, ?_⟩
  · exact (C6_intake_priority_policy [] 9 0 100 intakeQueueSeen5 intakeData5
      (0,0,intakeData5) (0,0,intakeData5) (0,0,intakeData5) [] (0,0,intakeData5)
      intakeQueueSeen5 0).1 rfl
  · exact (C6_intake_priority_policy [(5, 0)] 5 0 400 intakeQueueSeen5 intakeData5
      (0,0,intakeData5) (0,0,intakeData5) (0,0,intakeData5) [] (0,0,intakeData5)
      intakeQueueSeen5 0).2.1 rfl (by omega)
  · exact (C6_intake_priority_policy [(5, 0)] 5 0 200 intakeQueueSeen5 intakeData5
      (0,0,intakeData5) (0,0,intakeData5) (0,0,intakeData5) [] (0,0,intakeData5)
      intakeQueueSeen5 0).2.2.1 rfl (by omega) (by omega)
  · exact (C6_intake_priority_policy [(5, 0)] 5 0 50 intakeQueueSeen5 intakeData5
      (0,0,intakeData5) (0,0,intakeData5) (0,0,intakeData5) [] (0,0,intakeData5)
      intakeQueueSeen5 0).2.2.2.1 rfl (by omega)
  · exact (C6_intake_priority_policy [(5, 0)] 5 0 200 intakeQueueSeen5 intakeData5
      (0,0,intakeData5) (0,0,intakeData5) (0,0,intakeData5) [] (0,0,intakeData5)
      intakeQueueSeen5 0).2.2.2.2.1
  · exact (C6_intake_priority_policy [] 5 0 0 intakeQueueFifo intakeData5
      (1, 10, intakeData5) (1, 20, intakeData6) (1, 10, intakeData5)
      [(1, 20, intakeData6)] (0,0,intakeData5) intakeQueueSeen5 0).2.2.2.2.2.1
      (by decide) (by decide) rfl (by decide) (by decide)
  · exact (C6_intake_priority_policy [] 5 0 0 intakeQueueStep intakeData5
      (0,0,intakeData5) (0,0,intakeData5) (0,0,intakeData5) []
      (0, 7, intakeData5)
      { queue := [], user_last_processed := [(5, 77)] } 77).2.2.2.2.2.2
      (by decide)

/-- Deserializing a fully-serialized message restores it exactly. -/
theorem from_dict_to_dict (m : ModerationMessage) :
    ModerationMessage.from_dict m.to_dict = m := rfl

/-- Round trip of a serialized pending dict. -/
theorem pending_round_trip (l : List (String × ModerationMessage)) :
    (l.map fun p => (p.1, p.2.to_dict)).map
      (fun p => (p.1, ModerationMessage.from_dict p.2)) = l := by
  induction l with
  | nil => rfl
  | cons p rest ih => simp [ih, from_dict_to_dict]

/-- Round trip of a serialized archive list. -/
theorem archive_round_trip (l : List ModerationMessage) :
    (l.map ModerationMessage.to_dict).map ModerationMessage.from_dict = l := by
  induction l with
  | nil => rfl
  | cons m rest ih => simp [ih, from_dict_to_dict]

/-- C7: saving any queue state and loading it back reproduces the very same
record set — pending dict and both archives, ids, statuses, texts and all
fields — including records with every optional field unset; and
deserializing a record whose serialized form carries only the required keys
does not fail but fills every optional field with its documented default. -/
theorem C7_save_load_round_trip :
    (∀ (q : ModerationQueue) (now : Int),
        load_from_file (q.save_to_file now) = q) ∧
    (∀ (mid un om ar : String) (cid uid ts : Int),
        ModerationMessage.from_dict
          { message_id := mid, chat_id := cid, user_id := uid, username := un,
            original_message := om, ai_response := ar, timestamp := ts } =
        { message_id := mid, chat_id := cid, user_id := uid, username := un,
          original_message := om, ai_response := ar, timestamp := ts,
          chat_title := none, original_message_id := none, status := "pending",
          rejection_reason := none, moderated_at := none, expires_at := none,
          retry_count := 0, last_notification := none, admin_processing := none,
          admin_name := none, editing_admin_id := none,
          editing_admin_name := none, editing_started_at := none,
          reminder_count := 0, last_reminder_time := none }) := by
  constructor
  · intro q now
    unfold load_from_file ModerationQueue.save_to_file
    rw [pending_round_trip, archive_round_trip, archive_round_trip]
  · intro mid un om ar cid uid ts
    rfl

/-- C8 fails as stated: `reminderMsg` was created at `t = 0` and received
its 1st reminder at `t = 3600`; the claim's cumulative checkpoints make the
2nd reminder due when the record is 2 hours old, but at `t = 7200` the code
is not eligible, because `should_send_reminder` measures from the LAST
reminder and requires 7200s after it (so the 2nd fires at ≈ `t = 10800`). -/
theorem C8_second_reminder_not_at_two_hours :
    reminderMsg.timestamp = 0 ∧
    reminderMsg.reminder_count = 1 ∧
    reminderMsg.editing_admin_id = none ∧
    reminderMsg.last_reminder_time = some 3600 ∧
    should_send_reminder reminderMsg 7200 = false ∧
    should_send_reminder reminderMsg 10800 = true := by
  decide

/-- C8 (amended): the (k+1)-th reminder (k reminders already sent, k < 4)
becomes due when the time since the LAST reminder — or since creation, for
the first — reaches the offset `schedule[k+1]`, and those offsets are 1h,
2h, 4h, 8h (cumulative ≈ 1h, 3h, 7h, 15h under the hourly sweep); at most 4
reminders are ever sent; a record with a truthy editing lock is never
eligible; and delivery skips every opted-out reviewer and never targets the
record's lock owner. -/
theorem C8_reminder_policy
    (m : ModerationMessage) (now : Int) (o a : Int)
    (admins disabled : List Int) :
    (m.editing_admin_id = some o → o ≠ 0 →
        should_send_reminder m now = false) ∧
    (m.reminder_count ≥ 4 → should_send_reminder m now = false) ∧
    (m.editing_admin_id = none → m.reminder_count < 4 →
        (should_send_reminder m now = true ↔
          now - m.last_reminder_time.getD m.timestamp ≥
            reminder_schedule (m.reminder_count + 1))) ∧
    (reminder_schedule 1 = 3600 ∧ reminder_schedule 2 = 7200 ∧
      reminder_schedule 3 = 14400 ∧ reminder_schedule 4 = 28800) ∧
    (a ∈ smart_reminder_recipients m admins disabled →
        disabled.contains a = false ∧
        (m.editing_admin_id.getD 0 ≠ 0 → m.editing_admin_id ≠ some a)) := by
  refine ⟨?_, ?_, ?_, by decide, ?_⟩
  · intro ho ho0
    simp [should_send_reminder, ho, ho0]
  · intro hge
    have h4 : ¬ m.reminder_count < 4 := by omega
    simp [should_send_reminder, h4]
  · intro hnone hlt
    simp [should_send_reminder, hnone, hlt]
  · intro ha
    unfold smart_reminder_recipients at ha
    rw [List.mem_filter] at ha
    obtain ⟨_, hcond⟩ := ha
    rw [Bool.and_eq_true] at hcond
    obtain ⟨howner, hdis⟩ := hcond
    constructor
    · rw [Bool.not_eq_true'] at hdis
      exact hdis
    · intro htruthy heq
      rw [Bool.not_eq_true'] at howner
      rw [Bool.and_eq_false_iff] at howner
      rcases howner with h1 | h2
      · rw [decide_eq_false_iff_not] at h1
        exact h1 htruthy
      · rw [decide_eq_false_iff_not] at h2
        exact h2 heq

/-- Concrete instantiation of `C8_reminder_policy`: a locked record is not
eligible; a record with 4 reminders is not eligible; the 2nd reminder of
`reminderMsg` is due at `t = 10800` (2h after the 1st); and with admins
[3, 9], reviewer 9 both editing-owner-excluded and opt-out-excluded,
reviewer 3 is a recipient with neither exclusion. -/
theorem C8_reminder_policy_witness :
    should_send_reminder reminderMsgLocked 999999 = false ∧
    should_send_reminder reminderMsgMax 999999 = false ∧
    should_send_reminder reminderMsg 10800 = true ∧
    (3 : Int) ∈ smart_reminder_recipients reminderMsgLocked [3, 9] [9] ∧
    ([9] : List Int).contains 3 = false ∧
    reminderMsgLocked.editing_admin_id ≠ some 3 :=
  ⟨(C8_reminder_policy reminderMsgLocked 999999 9 0 [] []).1 rfl (by decide),
   (C8_reminder_policy reminderMsgMax 999999 0 0 [] []).2.1 (by decide),
   ((C8_reminder_policy reminderMsg 10800 0 0 [] []).2.2.1 rfl
     (by decide)).mpr (by decide),
   by decide,
   ((C8_reminder_policy reminderMsgLocked 0 9 3 [3, 9] [9]).2.2.2.2
     (by decide)).1,
   fun heq => by
     have h := ((C8_reminder_policy reminderMsgLocked 0 9 3 [3, 9] [9]).2.2.2.2
       (by decide)).2 (by decide)
     exact h heq⟩

/-- Setting a string key and reading it back yields the new value. -/
theorem dictGet_dictSet_self {α : Type} (l : List (String × α)) (k : String)
    (v : α) : dictGet (dictSet l k v) k = some v := by
  induction l with
  | nil => simp [dictSet, dictGet]
  | cons p rest ih =>
      obtain ⟨k', v'⟩ := p
      by_cases h : k' = k
      · simp [dictSet, dictGet, h]
      · simp [dictSet, dictGet, h, ih]

/-- `d[k] = v` on a present key replaces in place: the size is unchanged. -/
theorem dictSet_length_of_contains {α : Type} {l : List (String × α)}
    {k : String} (v : α) (h : dictContains l k = true) :
    (dictSet l k v).length = l.length := by
  induction l with
  | nil => simp [dictContains, dictGet] at h
  | cons p rest ih =>
      obtain ⟨k', v'⟩ := p
      by_cases hk : k' = k
      · simp [dictSet, hk]
      · have h' : dictContains rest k = true := by
          simpa [dictContains, dictGet, hk] using h
        simp [dictSet, hk, ih h']

/-- `d[k] = v` on an absent key appends: the size grows by one. -/
theorem dictSet_length_of_not_contains {α : Type} {l : List (String × α)}
    {k : String} (v : α) (h : dictContains l k = false) :
    (dictSet l k v).length = l.length + 1 := by
  induction l with
  | nil => simp [dictSet]
  | cons p rest ih =>
      obtain ⟨k', v'⟩ := p
      by_cases hk : k' = k
      · simp [dictContains, dictGet, hk] at h
      · have h' : dictContains rest k = false := by
          simpa [dictContains, dictGet, hk] using h
        simp [dictSet, hk, ih h']

/-- C9 fails as stated: the queue already holds a pending record under id
"abcdefgh"; one more enqueue whose uuid output happens to begin with the
same 8 characters returns the SAME id, keeps the pending count at 1, and
silently replaces the old record ("old question") with the new one
("new question") — `add_to_queue` performs a bare dict assignment with no
collision check and keeps no registry of removed ids. -/
theorem C9_colliding_uuid_silently_replaces :
    (qCollide.add_to_queue "abcdefgh-1234" dataNew 50 none).1 = "abcdefgh" ∧
    (qCollide.add_to_queue "abcdefgh-1234" dataNew 50
        none).2.pending_messages.length = 1 ∧
    (Option.map (fun m => m.original_message)
      (dictGet (qCollide.add_to_queue "abcdefgh-1234" dataNew 50
        none).2.pending_messages "abcdefgh")) = some "new question" ∧
    collidedMsg.original_message = "old question" := by
  decide

/-- C9 (amended): the id returned by enqueue is exactly the first 8
characters of the id-generator output, so two enqueues return distinct ids
precisely when those truncations differ; when the truncated output
collides with an existing pending id the existing record is silently
replaced (same pending size, new record under the id), and since no
registry of removed ids exists, a removed id is reassigned whenever the
generator re-emits its 8-character prefix; on a non-colliding id the
pending set grows by one. -/
theorem C9_enqueue_id_semantics
    (q q2 : ModerationQueue) (g g2 : String) (d d2 : IncomingMessageData)
    (now now2 : Int) (th th2 : Option Int) :
    ((q.add_to_queue g d now th).1 = String.mk (g.data.take 8)) ∧
    (String.mk (g.data.take 8) ≠ String.mk (g2.data.take 8) →
        (q.add_to_queue g d now th).1 ≠ (q2.add_to_queue g2 d2 now2 th2).1) ∧
    (dictContains q.pending_messages (String.mk (g.data.take 8)) = true →
        (q.add_to_queue g d now th).2.pending_messages.length =
          q.pending_messages.length ∧
        dictGet (q.add_to_queue g d now th).2.pending_messages
            (String.mk (g.data.take 8)) =
          some (make_moderation_message g d now th)) ∧
    (dictContains q.pending_messages (String.mk (g.data.take 8)) = false →
        (q.add_to_queue g d now th).2.pending_messages.length =
          q.pending_messages.length + 1 ∧
        dictGet (q.add_to_queue g d now th).2.pending_messages
            (String.mk (g.data.take 8)) =
          some (make_moderation_message g d now th)) := by
  refine ⟨rfl, ?_, ?_, ?_⟩
  · intro hne
    exact hne
  · intro hc
    exact ⟨dictSet_length_of_contains _ hc, dictGet_dictSet_self _ _ _⟩
  · intro hc
    exact ⟨dictSet_length_of_not_contains _ hc, dictGet_dictSet_self _ _ _⟩

/-- Concrete instantiation of `C9_enqueue_id_semantics`: the collision case
on `qCollide` and the distinct-prefix case against a fresh enqueue. -/
theorem C9_enqueue_id_semantics_witness :
    dictContains qCollide.pending_messages
      (String.mk (("abcdefgh-1234" : String).data.take 8)) = true ∧
    (qCollide.add_to_queue "abcdefgh-1234" dataNew 50
        none).2.pending_messages.length = qCollide.pending_messages.length ∧
    dictGet (qCollide.add_to_queue "abcdefgh-1234" dataNew 50
        none).2.pending_messages
        (String.mk (("abcdefgh-1234" : String).data.take 8)) =
      some (make_moderation_message "abcdefgh-1234" dataNew 50 none) ∧
    String.mk (("abcdefgh-1234" : String).data.take 8) ≠
      String.mk (("zzzz-uuid" : String).data.take 8) ∧
    (qCollide.add_to_queue "abcdefgh-1234" dataNew 50 none).1 ≠
      (qOne.add_to_queue "zzzz-uuid" dataNew 51 none).1 :=
  ⟨by decide,
   ((C9_enqueue_id_semantics qCollide qOne "abcdefgh-1234" "zzzz-uuid" dataNew
     dataNew 50 51 none none).2.2.1 (by decide)).1,
   ((C9_enqueue_id_semantics qCollide qOne "abcdefgh-1234" "zzzz-uuid" dataNew
     dataNew 50 51 none none).2.2.1 (by decide)).2,
   by decide,
   (C9_enqueue_id_semantics qCollide qOne "abcdefgh-1234" "zzzz-uuid" dataNew
     dataNew 50 51 none none).2.1 (by decide)⟩

/-- C10: `get_pending_messages` returns a fresh copy of the pending dict —
the returned reference holds the same entries, but any caller mutation
through it (modelled as overwriting the dict value at the returned
reference) leaves the dict at the queue's own reference untouched, so a
subsequent `approve_message` observes exactly the pre-mutation pending
records. -/
theorem C10_get_pending_messages_defensive_copy
    (h : PyHeap) (queue_ref : Nat)
    (d : List (String × ModerationMessage)) (id : String) (now : Int)
    (hv : queue_ref < h.next_ref) :
    ((h.get_pending_messages queue_ref).2.store
        (h.get_pending_messages queue_ref).1 = h.store queue_ref) ∧
    (((h.get_pending_messages queue_ref).2.write
        (h.get_pending_messages queue_ref).1 d).store queue_ref =
      h.store queue_ref) ∧
    (ModerationQueue.approve_message
        (queue_of_pending (((h.get_pending_messages queue_ref).2.write
          (h.get_pending_messages queue_ref).1 d).store queue_ref)) id now =
      ModerationQueue.approve_message
        (queue_of_pending (h.store queue_ref)) id now) := by
  have hne : queue_ref ≠ h.next_ref := Nat.ne_of_lt hv
  refine ⟨?_, ?_, ?_⟩
  · simp [PyHeap.get_pending_messages]
  · simp [PyHeap.get_pending_messages, PyHeap.write, hne]
  · simp [PyHeap.get_pending_messages, PyHeap.write, hne]

/-- Concrete instantiation of `C10_get_pending_messages_defensive_copy`:
copying `heap0`'s dict at reference 0 and emptying the copy leaves "m1"
approvable through the queue's own reference. -/
theorem C10_get_pending_messages_defensive_copy_witness :
    0 < heap0.next_ref ∧
    (heap0.get_pending_messages 0).2.store
      (heap0.get_pending_messages 0).1 = heap0.store 0 ∧
    ((heap0.get_pending_messages 0).2.write
      (heap0.get_pending_messages 0).1 []).store 0 = heap0.store 0 ∧
    ModerationQueue.approve_message
      (queue_of_pending (((heap0.get_pending_messages 0).2.write
        (heap0.get_pending_messages 0).1 []).store 0)) "m1" 5 =
      ModerationQueue.approve_message
        (queue_of_pending (heap0.store 0)) "m1" 5 :=
  ⟨by decide,
   (C10_get_pending_messages_defensive_copy heap0 0 [] "m1" 5 (by decide)).1,
   (C10_get_pending_messages_defensive_copy heap0 0 [] "m1" 5 (by decide)).2.1,
   (C10_get_pending_messages_defensive_copy heap0 0 [] "m1" 5 (by decide)).2.2⟩
